import Mathlib

/-!
Verification of the KnowBase AI streaming message exchange:
the chat proxy (supabase/functions/chat/index.ts), the client SSE stream
consumers (QuizGenerator.tsx and the spec-described streamChat), PDF
attachment preprocessing (parsePDF) and the image-generation daily limit
(useImageGeneration.ts), shallowly embedded in Lean.
-/

namespace KnowBase

/-- Prefix test on strings (the JavaScript startsWith), defined by
structural recursion over the character data so that it evaluates inside
the kernel. -/
def strStartsWith (s p : String) : Bool :=
  List.isPrefixOf p.data s.data

/-- Drop of the first n characters of a string (the JavaScript slice(n)
on these ASCII lines), defined over the character data. -/
def strDrop (s : String) (n : Nat) : String :=
  ⟨List.drop n s.data⟩

/-- Lowercasing of a string, defined over the character data. -/
def lowerStr (s : String) : String :=
  ⟨s.data.map Char.toLower⟩

/-- Split of a string on newline characters (the JavaScript
split on a newline), defined over the character data. -/
def splitNewlines (chunk : String) : List String :=
  (chunk.data.splitOn '\n').map (fun l => String.mk l)

/-- Map with the element index, as the JavaScript Array map with an index
parameter. -/
def mapIdxFrom (f : Nat → α → β) : Nat → List α → List β
  | _, [] => []
  | i, a :: as => f i a :: mapIdxFrom f (i + 1) as

/-- Map with the element index starting at zero. -/
def mapWithIndex (f : Nat → α → β) (l : List α) : List β :=
  mapIdxFrom f 0 l

/-- JSON values, modelling the results of JSON.parse on SSE data lines. -/
inductive Json where
  | null
  | bool (b : Bool)
  | num (n : Int)
  | str (s : String)
  | arr (elems : List Json)
  | obj (fields : List (String × Json))

/-- Field access j.k with optional chaining: defined only on objects. -/
def jGet (j : Json) (k : String) : Option Json :=
  match j with
  | Json.obj fields => (fields.find? (fun p => p.1 = k)).map (fun p => p.2)
  | _ => none

/-- Index access j[n] with optional chaining: defined only on arrays. -/
def jIdx (j : Json) (n : Nat) : Option Json :=
  match j with
  | Json.arr elems => elems.get? n
  | _ => none

/-- String extraction: some only when the value is a JSON string. -/
def jStr : Json → Option String
  | Json.str s => some s
  | _ => none

/-- Embeds the extraction json.choices?.[0]?.delta?.content used by the
client stream consumers. -/
def deltaContent (j : Json) : Option String :=
  (((jGet j "choices").bind (fun c => jIdx c 0)).bind
    (fun c => jGet c "delta")).bind (fun d => (jGet d "content").bind jStr)

/-- Embeds the per-line body of the SSE read loop in
QuizGenerator.tsx generateQuiz: a line that starts with the data prefix and
is not the [DONE] terminator is JSON-parsed; on success the (truthy)
delta content is appended to the accumulator; parse failures are swallowed
by the empty catch. The JSON.parse platform function is a parameter. -/
def processLine (parse : String → Option Json) (fullContent : String) (line : String) : String :=
  if strStartsWith line "data: " ∧ line ≠ "data: [DONE]" then
    match parse (strDrop line 6) with
    | some json =>
      match deltaContent json with
      | some content => if content = "" then fullContent else fullContent ++ content
      | none => fullContent
    | none => fullContent
  else fullContent

/-- Embeds the inner for-loop of generateQuiz over the lines of one chunk. -/
def processLines (parse : String → Option Json) (fullContent : String) (lines : List String) : String :=
  lines.foldl (processLine parse) fullContent

/-- Embeds one iteration of the while-loop of generateQuiz: a decoded chunk
is split on newlines and each line is processed. -/
def processChunk (parse : String → Option Json) (fullContent : String) (chunk : String) : String :=
  processLines parse fullContent (splitNewlines chunk)

/-- Embeds the whole read loop of generateQuiz: chunks are consumed in
arrival order until the stream is exhausted, starting from the empty
accumulator. -/
def processStream (parse : String → Option Json) (chunks : List String) : String :=
  chunks.foldl (processChunk parse) ""

/-- Events delivered to the caller of the client stream consumer: a
per-delta event, a completion event, and an error event (fired only for
request-level failures, never by line processing). -/
inductive StreamEvent where
  | delta (cumulative : String)
  | done (finalText : String)
  | error (message : String)
  deriving DecidableEq

/-- Modelled from the spec: the callback-based Client Stream Consumer
(streamChat in src/lib/chat.ts) is absent from the repository snapshot;
only its callers appear. Per the spec, each line beginning with the SSE
data prefix and not equal to the literal terminator is parsed as JSON; a
successfully parsed text delta is appended to the running buffer and the
per-delta event fires with the cumulative buffer content; a line equal to
the literal terminator ends the read loop immediately; a stream that ends
without a terminator still fires completion with the partial buffer;
malformed lines are silently skipped. Line parsing and delta extraction
follow the in-repository consumer in QuizGenerator.tsx. -/
def streamGo (parse : String → Option Json) (buf : String) : List String → List StreamEvent
  | [] => [StreamEvent.done buf]
  | line :: rest =>
    if line = "data: [DONE]" then [StreamEvent.done buf]
    else if strStartsWith line "data: " then
      match parse (strDrop line 6) with
      | some json =>
        match deltaContent json with
        | some content =>
          if content = "" then streamGo parse buf rest
          else StreamEvent.delta (buf ++ content) :: streamGo parse (buf ++ content) rest
        | none => streamGo parse buf rest
      | none => streamGo parse buf rest
    else streamGo parse buf rest

/-- Modelled from the spec: the full event sequence the Client Stream
Consumer delivers for a given sequence of SSE lines. -/
def streamChatEvents (parse : String → Option Json) (lines : List String) : List StreamEvent :=
  streamGo parse "" lines

/-- File attachments as received by the chat proxy
(supabase/functions/chat/index.ts FileAttachment). -/
structure FileAttachment where
  name : String
  type : String
  base64 : String
  pdfText : Option String
  pdfPageCount : Option Nat
  deriving DecidableEq

/-- Inbound chat messages: a role and a plain text content. -/
structure ChatMessage where
  role : String
  content : String
  deriving DecidableEq

/-- Content parts of a rewritten multi-part message. -/
inductive ContentPart where
  | text (text : String)
  | image_url (url : String)
  deriving DecidableEq

/-- Outbound message content: either a plain string or a part list. -/
inductive MessageContent where
  | str (s : String)
  | parts (ps : List ContentPart)
  deriving DecidableEq

/-- Messages of the proxy's outbound upstream payload. -/
structure OutMessage where
  role : String
  content : MessageContent
  deriving DecidableEq

/-- JavaScript truthiness of an optional string (undefined and the empty
string are falsy). -/
def jsTruthyStr : Option String → Bool
  | none => false
  | some s => s ≠ ""

/-- JavaScript string interpolation of the optional pdfPageCount field
(an absent field prints as undefined). -/
def showPageCount : Option Nat → String
  | some n => toString n
  | none => "undefined"

/-- Labeled text block appended for an attachment carrying extracted PDF
text, as in index.ts processedMessages. -/
def pdfBlock (file : FileAttachment) : String :=
  "\n\n[PDF Document: " ++ file.name ++ " (" ++ showPageCount file.pdfPageCount
    ++ " pages)]\n" ++ file.pdfText.getD ""

/-- Filename marker appended for a non-image attachment without extracted
text, as in index.ts processedMessages. -/
def attachedFileBlock (file : FileAttachment) : String :=
  "\n\n[Attached file: " ++ file.name ++ "]"

/-- Embeds one iteration of the for-loop over files in index.ts
processedMessages: the accumulator is the content part array together with
the textContent string. Attachments with truthy pdfText are appended to the
text; otherwise image-typed attachments push an inline image part;
otherwise a filename marker is appended to the text. -/
def attachStep (acc : List ContentPart × String) (file : FileAttachment) : List ContentPart × String :=
  if jsTruthyStr file.pdfText then
    (acc.1, acc.2 ++ pdfBlock file)
  else if strStartsWith file.type "image/" then
    (acc.1 ++ [ContentPart.image_url file.base64], acc.2)
  else
    (acc.1, acc.2 ++ attachedFileBlock file)

/-- Embeds the rewriting of the last user message in index.ts
processedMessages: the files are folded over the empty part array and the
original message content, then the accumulated text is unshifted as the
first content part. -/
def rewriteLastMessage (msg : ChatMessage) (files : List FileAttachment) : OutMessage :=
  let folded := files.foldl attachStep ([], msg.content)
  ⟨msg.role, MessageContent.parts (ContentPart.text folded.2 :: folded.1)⟩

/-- Injection of an untouched inbound message into the outbound type. -/
def plainMessage (msg : ChatMessage) : OutMessage :=
  ⟨msg.role, MessageContent.str msg.content⟩

/-- Embeds the per-message body of messages.map in index.ts: only a user
message at the last index is rewritten, and only when the file list is
present and non-empty. -/
def processOne (total : Nat) (files : List FileAttachment) (i : Nat) (msg : ChatMessage) : OutMessage :=
  if msg.role = "user" ∧ i = total - 1 ∧ files ≠ [] then rewriteLastMessage msg files
  else plainMessage msg

/-- Embeds processedMessages of index.ts (chat branch). -/
def processedMessages (messages : List ChatMessage) (files : List FileAttachment) : List OutMessage :=
  mapWithIndex (processOne messages.length files) messages

/-- User learning preferences received by the proxy (index.ts). -/
structure UserPreferences where
  preferred_learning_style : Option String
  preferred_examples : Option String
  difficulty_preference : Option String
  gamification_enabled : Option Bool
  deriving DecidableEq

/-- Learner analytics context received by the proxy (index.ts). -/
structure LearningContext where
  quiz_accuracy : Option Int
  engagement_score : Option Int
  topic : Option String
  difficulty_level : Option String
  deriving DecidableEq

/-- JavaScript or-default on an optional string (the empty string is
falsy and falls back to the default). -/
def jsOrStr (o : Option String) (d : String) : String :=
  match o with
  | none => d
  | some s => if s = "" then d else s

/-- JavaScript nullish-coalescing rendering of an optional number. -/
def showOrNA : Option Int → String
  | some n => toString n
  | none => "N/A"

/-- Base instructions of buildSystemPrompt in index.ts. -/
def basePrompt : String :=
  "You are Knowbase AI, an intelligent, adaptive learning assistant. You provide personalized education that adapts to each learner\x27s needs, preferences, and pace.\n\nGuidelines:\n- Be clear, concise, and accurate\n- Break down complex topics into digestible parts\n- Use markdown formatting for better readability\n- Include code examples when relevant (use proper syntax highlighting)\n- Structure responses with headers, lists, and emphasis when appropriate\n- Acknowledge uncertainty when you\x27re not sure about something\n- Provide balanced perspectives on debatable topics\n\nWhen analyzing images:\n- Describe what you see in detail\n- Answer any questions about the image content\n- Extract text if asked (OCR)\n- Identify objects, people, scenes, colors, etc.\n- Provide context and insights about the image\n\nWhen explaining technical concepts:\n- Start with a brief overview\n- Break down key concepts\n- Provide practical examples\n- Summarize the main takeaways\n\nAlways maintain a helpful, professional, and engaging tone."

/-- Block appended to the system prompt when user preferences are
supplied (index.ts buildSystemPrompt). -/
def preferencesBlock (p : UserPreferences) : String :=
  "\n\n**User Learning Preferences:**\n- Learning Style: "
    ++ jsOrStr p.preferred_learning_style "textual"
    ++ " (adjust explanations accordingly - use more "
    ++ (if p.preferred_learning_style = some "visual" then
          "diagrams, charts, and visual descriptions"
        else if p.preferred_learning_style = some "practical" then
          "hands-on examples and exercises"
        else "clear textual explanations")
    ++ ")\n- Example Preferences: "
    ++ jsOrStr p.preferred_examples "general"
    ++ " (use relatable examples from "
    ++ (if p.preferred_examples = some "sports" then
          "sports like cricket, football"
        else if p.preferred_examples = some "technology" then
          "technology and computing"
        else if p.preferred_examples = some "daily_life" then
          "everyday life situations"
        else "various domains")
    ++ ")\n- Difficulty Level: "
    ++ jsOrStr p.difficulty_preference "adaptive"
    ++ "\n"
    ++ (if p.gamification_enabled = some true then
          "- Include gamification elements like points, achievements, and progress indicators when appropriate"
        else "")

/-- Block appended to the system prompt when a learning context is
supplied (index.ts buildSystemPrompt). -/
def analyticsBlock (c : LearningContext) : String :=
  "\n\n**Learner Analytics:**\n- Recent Quiz Accuracy: "
    ++ showOrNA c.quiz_accuracy
    ++ "%\n- Engagement Level: "
    ++ showOrNA c.engagement_score
    ++ "/100\n- Current Topic: "
    ++ jsOrStr c.topic "General"
    ++ "\n- Recommended Difficulty: "
    ++ jsOrStr c.difficulty_level "medium"
    ++ "\n\nAdapt your responses based on these metrics. If accuracy is low, simplify explanations. If engagement is dropping, make content more interactive."

/-- Embeds buildSystemPrompt of index.ts. -/
def buildSystemPrompt (prefs : Option UserPreferences) (ctx : Option LearningContext) : String :=
  basePrompt
    ++ (match prefs with | some p => preferencesBlock p | none => "")
    ++ (match ctx with | some c => analyticsBlock c | none => "")

/-- Embeds the message list of the proxy's outbound upstream payload on the
chat branch: the system prompt followed by the processed messages. -/
def outboundMessages (messages : List ChatMessage) (files : List FileAttachment)
    (prefs : Option UserPreferences) (ctx : Option LearningContext) : List OutMessage :=
  ⟨"system", MessageContent.str (buildSystemPrompt prefs ctx)⟩ :: processedMessages messages files

/-- Caller-facing error response of the proxy: HTTP status and the error
string of the JSON body. -/
structure ErrorResponse where
  status : Nat
  error : String
  deriving DecidableEq

/-- Embeds the upstream-failure mapping of the chat branch of index.ts:
upstream 429 and 402 are mapped to like statuses with fixed wordings, any
other failure maps to a generic 500. -/
def chatFailureResponse (status : Nat) : ErrorResponse :=
  if status = 429 then ⟨429, "Rate limit exceeded. Please try again later."⟩
  else if status = 402 then ⟨402, "Usage limit reached. Please add credits to continue."⟩
  else ⟨500, "AI service error. Please try again."⟩

/-- Embeds the response.ok guard around the failure mapping: a successful
upstream status (the fetch ok range 200..299) is relayed as a stream (no
error response); otherwise the failure mapping applies. -/
def chatBranchError (status : Nat) : Option ErrorResponse :=
  if 200 ≤ status ∧ status ≤ 299 then none else some (chatFailureResponse status)

/-- Substring containment on strings. -/
def ContainsStr (hay needle : String) : Prop :=
  ∃ p q, hay = p ++ needle ++ q

/-- Case-insensitive containment of an already-lowercase needle. -/
def ContainsCI (hay needle : String) : Prop :=
  ContainsStr (lowerStr hay) needle

/-- Embeds one extracted page block of parsePDF (unnamed pdf parser
module): the page label followed by the joined page text. -/
def pdfPagePart (pageText : Nat → String) (i : Nat) : String :=
  "[Page " ++ toString i ++ "]\n" ++ pageText i

/-- Embeds the truncation notice of parsePDF. -/
def pdfTruncationNote (pageCount maxPages : Nat) : String :=
  "\n[Note: PDF has " ++ toString pageCount ++ " pages. Showing first "
    ++ toString maxPages ++ " pages.]"

/-- Embeds the textParts array built by parsePDF: pages 1 through
min(pageCount, 20) are extracted, and a truncation notice is pushed when
the document has more pages than were shown. The per-page extracted text
is a parameter standing for the pdf.js text content of each page. -/
def parsePDFParts (pageCount : Nat) (pageText : Nat → String) : List String :=
  let maxPages := min pageCount 20
  ((List.range maxPages).map (fun k => pdfPagePart pageText (k + 1)))
    ++ (if maxPages < pageCount then [pdfTruncationNote pageCount maxPages] else [])

/-- Embeds the text field of the parsePDF result: the parts joined with
blank lines. -/
def parsePDFText (pageCount : Nat) (pageText : Nat → String) : String :=
  String.intercalate "\n\n" (parsePDFParts pageCount pageText)

/-- Daily image generation limit of useImageGeneration.ts. -/
def DAILY_LIMIT : Nat := 2

/-- Successful result of generateImage in useImageGeneration.ts. -/
structure ImageGenResult where
  imageUrl : String
  textResponse : Option String
  deriving DecidableEq

/-- Outcome of the HTTP request to the proxy, when one is issued. -/
inductive FetchOutcome where
  | success (imageUrl : String) (textResponse : Option String)
  | failure (message : String)
  deriving DecidableEq

/-- Observable outcome of one generateImage call: the returned value, the
daily count afterwards, and whether an HTTP request was issued. -/
structure GenerateImageOutcome where
  result : Option ImageGenResult
  newDailyCount : Nat
  requestIssued : Bool
  deriving DecidableEq

/-- Embeds canGenerate of useImageGeneration.ts. -/
def canGenerate (dailyCount : Nat) : Bool :=
  dailyCount < DAILY_LIMIT

/-- Embeds generateImage of useImageGeneration.ts: an unauthenticated user
or a reached daily limit returns null before any request; otherwise the
request is issued, and on success the daily count is incremented by one
and the result returned, while a failed request is caught and returns
null leaving the count unchanged. -/
def generateImage (userId : Option String) (dailyCount : Nat) (outcome : FetchOutcome) : GenerateImageOutcome :=
  match userId with
  | none => ⟨none, dailyCount, false⟩
  | some _ =>
    if DAILY_LIMIT ≤ dailyCount then ⟨none, dailyCount, false⟩
    else
      match outcome with
      | FetchOutcome.success url txt => ⟨some ⟨url, txt⟩, dailyCount + 1, true⟩
      | FetchOutcome.failure _ => ⟨none, dailyCount, true⟩

/-- Synthetic JSON payload text of one SSE delta line. -/
def syntheticJsonStr (s : String) : String :=
  "\x7b\"choices\":[\x7b\"delta\":\x7b\"content\":\"" ++ s ++ "\"\x7d\x7d]\x7d"

/-- Synthetic SSE data line carrying one delta. -/
def deltaLine (s : String) : String :=
  "data: " ++ syntheticJsonStr s

/-- Parsed JSON value of a synthetic delta payload. -/
def deltaJson (s : String) : Json :=
  Json.obj [("choices", Json.arr [Json.obj [("delta", Json.obj [("content", Json.str s)])]])]

/-- Concrete JSON.parse behaviour on the synthetic payloads used by the
concrete stream runs: the three synthetic delta payloads parse to their
JSON values, everything else fails to parse. -/
def parseSyn (t : String) : Option Json :=
  if t = syntheticJsonStr "A" then some (deltaJson "A")
  else if t = syntheticJsonStr "B" then some (deltaJson "B")
  else if t = syntheticJsonStr "X" then some (deltaJson "X")
  else none

/-- Concatenation of a list of strings in order. -/
def strConcat : List String → String
  | [] => ""
  | s :: rest => s ++ strConcat rest

/-- Characterization of the attachments the proxy routes as inline image
parts: image MIME type and no extracted PDF text (index.ts checks pdfText
before the MIME type). -/
def imageRouted (f : FileAttachment) : Bool :=
  !jsTruthyStr f.pdfText && strStartsWith f.type "image/"

/-- Characterization of what each attachment contributes to the rewritten
text content: its labeled PDF block when it carries extracted text, nothing
when it is routed as an image, a filename marker otherwise. -/
def textBlock (f : FileAttachment) : String :=
  if jsTruthyStr f.pdfText then pdfBlock f
  else if strStartsWith f.type "image/" then ""
  else attachedFileBlock f

/-- Recognizer of inline-image content parts. -/
def isImagePart : ContentPart → Bool
  | ContentPart.image_url _ => true
  | ContentPart.text _ => false

/-- Recognizer of text content parts. -/
def isTextPart : ContentPart → Bool
  | ContentPart.text _ => true
  | ContentPart.image_url _ => false

theorem mapIdxFrom_append (f : Nat → α → β) (i : Nat) (l₁ l₂ : List α) :
    mapIdxFrom f i (l₁ ++ l₂) = mapIdxFrom f i l₁ ++ mapIdxFrom f (i + l₁.length) l₂ := by
  induction l₁ generalizing i with
  | nil => simp [mapIdxFrom]
  | cons a as ih =>
    have h : i + 1 + as.length = i + (as.length + 1) := by omega
    simp only [List.cons_append, mapIdxFrom, List.length_cons, List.append_eq]
    rw [ih, h]

theorem mapIdxFrom_no_files (total i : Nat) (l : List ChatMessage) :
    mapIdxFrom (processOne total []) i l = l.map plainMessage := by
  induction l generalizing i with
  | nil => rfl
  | cons a as ih => simp [mapIdxFrom, processOne, ih]

theorem foldl_attachStep (files : List FileAttachment) (ps : List ContentPart) (t : String) :
    files.foldl attachStep (ps, t) =
      (ps ++ (files.filter imageRouted).map (fun f => ContentPart.image_url f.base64),
        t ++ strConcat (files.map textBlock)) := by
  induction files generalizing ps t with
  | nil => simp [strConcat, String.append_empty]
  | cons f fs ih =>
    by_cases h1 : jsTruthyStr f.pdfText
    · simp [attachStep, h1, ih, imageRouted, textBlock, strConcat, String.append_assoc]
    · by_cases h2 : strStartsWith f.type "image/"
      · simp [attachStep, h1, h2, ih, imageRouted, textBlock, strConcat,
          String.empty_append]
      · simp [attachStep, h1, h2, ih, imageRouted, textBlock, strConcat,
          String.append_assoc]

theorem rewriteLastMessage_eq (msg : ChatMessage) (files : List FileAttachment) :
    rewriteLastMessage msg files =
      ⟨msg.role, MessageContent.parts
        (ContentPart.text (msg.content ++ strConcat (files.map textBlock))
          :: (files.filter imageRouted).map (fun f => ContentPart.image_url f.base64))⟩ := by
  simp [rewriteLastMessage, foldl_attachStep]

theorem processedMessages_concat (ms : List ChatMessage) (m : ChatMessage)
    (files : List FileAttachment) (hrole : m.role = "user") (hf : files ≠ []) :
    processedMessages (ms ++ [m]) files =
      mapIdxFrom (processOne (ms.length + 1) files) 0 ms ++ [rewriteLastMessage m files] := by
  unfold processedMessages mapWithIndex
  rw [mapIdxFrom_append]
  simp [mapIdxFrom, processOne, hrole, hf]

/-- C1: every successfully parsed data line's text delta is appended to
the running buffer and the per-delta event fires with the cumulative
buffer content, not just the fragment; feeding the synthetic stream of
deltas A, B and the terminator produces exactly two per-delta firings with
cumulative values A then AB, followed by exactly one completion firing
with final text AB. -/
theorem delta_appends_and_fires_cumulative (parse : String → Option Json)
    (buf line : String) (rest : List String) (j : Json) (c : String)
    (hterm : line ≠ "data: [DONE]")
    (hpre : strStartsWith line "data: " = true)
    (hj : parse (strDrop line 6) = some j)
    (hc : deltaContent j = some c)
    (hne : c ≠ "") :
    streamGo parse buf (line :: rest)
      = StreamEvent.delta (buf ++ c) :: streamGo parse (buf ++ c) rest ∧
    processLine parse buf line = buf ++ c ∧
    streamChatEvents parseSyn [deltaLine "A", deltaLine "B", "data: [DONE]"]
      = [StreamEvent.delta "A", StreamEvent.delta "AB", StreamEvent.done "AB"] ∧
    processLines parseSyn "" [deltaLine "A", deltaLine "B", "data: [DONE]"] = "AB" := by
  refine ⟨?_, ?_, by decide, by decide⟩
  · simp [streamGo, hterm, hpre, hj, hc, hne]
  · simp [processLine, hterm, hpre, hj, hc, hne]

/-- Witness for C1 at the concrete first synthetic delta line. -/
theorem delta_appends_and_fires_cumulative_witness :
    deltaLine "A" ≠ "data: [DONE]" ∧
    strStartsWith (deltaLine "A") "data: " = true ∧
    parseSyn (strDrop (deltaLine "A") 6) = some (deltaJson "A") ∧
    deltaContent (deltaJson "A") = some "A" ∧
    ("A" : String) ≠ "" ∧
    (streamGo parseSyn "" (deltaLine "A" :: [])
        = StreamEvent.delta ("" ++ "A") :: streamGo parseSyn ("" ++ "A") [] ∧
      processLine parseSyn "" (deltaLine "A") = "" ++ "A" ∧
      streamChatEvents parseSyn [deltaLine "A", deltaLine "B", "data: [DONE]"]
        = [StreamEvent.delta "A", StreamEvent.delta "AB", StreamEvent.done "AB"] ∧
      processLines parseSyn "" [deltaLine "A", deltaLine "B", "data: [DONE]"] = "AB") :=
  ⟨by decide, by decide, rfl, rfl, by decide,
    delta_appends_and_fires_cumulative parseSyn "" (deltaLine "A") [] (deltaJson "A") "A"
      (by decide) (by decide) rfl rfl (by decide)⟩

/-- C2 counterexample: in the read loop of QuizGenerator.tsx the
terminator line does not end the loop, and the buffer is mutated by a
data line that follows the terminator: on the stream consisting of
data: [DONE] followed by a delta line carrying X, the final buffer is X,
although the buffer was empty when the terminator was observed. -/
theorem terminator_then_delta_counterexample :
    processStream parseSyn ["data: [DONE]\n" ++ deltaLine "X"] = "X" ∧
    processLines parseSyn "" ["data: [DONE]"] = "" ∧
    ("X" : String) ≠ "" := by
  refine ⟨by decide, by decide, by decide⟩

/-- C2 amended: observing the terminator line never mutates the buffer
(the line is skipped), but the read loop does not end there: the remaining
lines of the stream are still processed, so data lines after the
terminator are still appended. -/
theorem terminator_skipped_not_final (parse : String → Option Json) (buf : String)
    (front rest : List String) :
    processLine parse buf "data: [DONE]" = buf ∧
    processLines parse buf (front ++ "data: [DONE]" :: rest)
      = processLines parse (processLines parse buf front) rest := by
  constructor
  · simp [processLine]
  · simp [processLines, List.foldl_append, processLine]

/-- C8: an SSE line that begins with the data prefix but fails JSON
parsing is skipped locally: the buffer is unchanged, no per-delta event
fires for it and no error is surfaced, and processing of the subsequent
lines continues, both in the QuizGenerator.tsx loop and in the modelled
callback consumer. -/
theorem malformed_line_skipped (parse : String → Option Json) (buf line : String)
    (rest : List String)
    (hpre : strStartsWith line "data: " = true)
    (hbad : parse (strDrop line 6) = none)
    (hterm : line ≠ "data: [DONE]") :
    processLine parse buf line = buf ∧
    processLines parse buf (line :: rest) = processLines parse buf rest ∧
    streamGo parse buf (line :: rest) = streamGo parse buf rest := by
  have hl : processLine parse buf line = buf := by
    simp [processLine, hpre, hterm, hbad]
  refine ⟨hl, ?_, ?_⟩
  · simp [processLines, hl]
  · simp [streamGo, hterm, hpre, hbad]

/-- Witness for C8 at a concrete keep-alive style line. -/
theorem malformed_line_skipped_witness :
    strStartsWith "data: not-json" "data: " = true ∧
    parseSyn (strDrop "data: not-json" 6) = none ∧
    ("data: not-json" : String) ≠ "data: [DONE]" ∧
    (processLine parseSyn "AB" "data: not-json" = "AB" ∧
      processLines parseSyn "AB" ("data: not-json" :: [deltaLine "X"])
        = processLines parseSyn "AB" [deltaLine "X"] ∧
      streamGo parseSyn "AB" ("data: not-json" :: [deltaLine "X"])
        = streamGo parseSyn "AB" [deltaLine "X"]) :=
  ⟨by decide, rfl, by decide,
    malformed_line_skipped parseSyn "AB" "data: not-json" [deltaLine "X"]
      (by decide) rfl (by decide)⟩

/-- C3: on the proxy's chat branch, a non-successful upstream status is
mapped to a caller-facing error: upstream 429 yields status 429 with a
body containing the words rate limit (case-insensitively), upstream 402
yields status 402 with wording referencing usage, and any other failing
status yields status 500 with a generic service-error body. -/
theorem upstream_failure_mapping (s : Nat) (h : ¬(200 ≤ s ∧ s ≤ 299)) :
    chatBranchError s = some (chatFailureResponse s) ∧
    (s = 429 → (chatFailureResponse s).status = 429 ∧
      ContainsCI (chatFailureResponse s).error "rate limit") ∧
    (s = 402 → (chatFailureResponse s).status = 402 ∧
      ContainsCI (chatFailureResponse s).error "usage") ∧
    (s ≠ 429 → s ≠ 402 → (chatFailureResponse s).status = 500 ∧
      ContainsCI (chatFailureResponse s).error "service error") := by
  refine ⟨by simp [chatBranchError, h], ?_, ?_, ?_⟩
  · intro h429
    subst h429
    exact ⟨rfl, "", " exceeded. please try again later.", by decide⟩
  · intro h402
    subst h402
    exact ⟨rfl, "", " limit reached. please add credits to continue.", by decide⟩
  · intro h1 h2
    have he : chatFailureResponse s = ⟨500, "AI service error. Please try again."⟩ := by
      simp [chatFailureResponse, h1, h2]
    rw [he]
    exact ⟨rfl, "ai ", ". please try again.", by decide⟩

/-- Witness for C3 at the concrete upstream status 429. -/
theorem upstream_failure_mapping_witness :
    ¬(200 ≤ 429 ∧ 429 ≤ 299) ∧
    (chatBranchError 429 = some (chatFailureResponse 429) ∧
      (429 = 429 → (chatFailureResponse 429).status = 429 ∧
        ContainsCI (chatFailureResponse 429).error "rate limit") ∧
      (429 = 402 → (chatFailureResponse 429).status = 402 ∧
        ContainsCI (chatFailureResponse 429).error "usage") ∧
      (429 ≠ 429 → 429 ≠ 402 → (chatFailureResponse 429).status = 500 ∧
        ContainsCI (chatFailureResponse 429).error "service error")) :=
  ⟨by decide, upstream_failure_mapping 429 (by decide)⟩

/-- C4: for every inbound message array with no attachments, the proxy's
outbound upstream message list equals the system prompt followed by the
input messages in order, each passed through unchanged. -/
theorem no_files_payload_unchanged (messages : List ChatMessage)
    (prefs : Option UserPreferences) (ctx : Option LearningContext) :
    processedMessages messages [] = messages.map plainMessage ∧
    outboundMessages messages [] prefs ctx
      = ⟨"system", MessageContent.str (buildSystemPrompt prefs ctx)⟩
          :: messages.map plainMessage := by
  have h : processedMessages messages [] = messages.map plainMessage := by
    simp [processedMessages, mapWithIndex, mapIdxFrom_no_files]
  exact ⟨h, by simp [outboundMessages, h]⟩

/-- C5: when the last message is a user message and the request carries
exactly one image-typed attachment with no extracted document text, the
rewritten last message's content is exactly one text part, equal to the
original content, and one inline-image part. -/
theorem single_image_attachment (ms : List ChatMessage) (m : ChatMessage)
    (f : FileAttachment)
    (hrole : m.role = "user")
    (himg : strStartsWith f.type "image/" = true)
    (hdoc : jsTruthyStr f.pdfText = false) :
    (processedMessages (ms ++ [m]) [f]).getLast?
      = some ⟨m.role, MessageContent.parts
          [ContentPart.text m.content, ContentPart.image_url f.base64]⟩ ∧
    List.countP isImagePart
      [ContentPart.text m.content, ContentPart.image_url f.base64] = 1 ∧
    List.countP isTextPart
      [ContentPart.text m.content, ContentPart.image_url f.base64] = 1 := by
  refine ⟨?_, by simp [List.countP_cons, isImagePart],
    by simp [List.countP_cons, isTextPart]⟩
  rw [processedMessages_concat ms m [f] hrole (by simp), List.getLast?_concat]
  simp [rewriteLastMessage, attachStep, hdoc, himg]

/-- Witness for C5 at a concrete one-image request. -/
theorem single_image_attachment_witness :
    (⟨"user", "hi"⟩ : ChatMessage).role = "user" ∧
    strStartsWith "image/png" "image/" = true ∧
    jsTruthyStr none = false ∧
    (processedMessages ([] ++ [⟨"user", "hi"⟩]) [⟨"pic.png", "image/png", "b64", none, none⟩]).getLast?
      = some ⟨"user", MessageContent.parts
          [ContentPart.text "hi", ContentPart.image_url "b64"]⟩ :=
  ⟨rfl, by decide, rfl,
    ((single_image_attachment [] ⟨"user", "hi"⟩ ⟨"pic.png", "image/png", "b64", none, none⟩
      rfl (by decide) rfl).1)⟩

/-- C6 counterexample: an image-typed attachment that carries extracted
PDF text is not passed as an inline image reference; it is flattened into
the text content, so the rewritten message has zero inline-image parts. -/
theorem image_attachment_with_pdftext_counterexample :
    strStartsWith "image/png" "image/" = true ∧
    processedMessages [⟨"user", "hi"⟩] [⟨"scan.png", "image/png", "b64", some "T", some 1⟩]
      = [⟨"user", MessageContent.parts
          [ContentPart.text "hi\n\n[PDF Document: scan.png (1 pages)]\nT"]⟩] ∧
    List.countP isImagePart
      [ContentPart.text "hi\n\n[PDF Document: scan.png (1 pages)]\nT"] = 0 := by
  decide

/-- C6 amended: the proxy routes each attachment of the final user message
in order, checking extracted text first: attachments with truthy pdfText
are flattened into the text content as their labeled PDF block, remaining
image-typed attachments become separate inline image parts, and all other
attachments are flattened as a filename marker; the rewritten content is
the accumulated text part followed by exactly the image parts of the
imageRouted attachments. -/
theorem attachment_routing (ms : List ChatMessage) (m : ChatMessage)
    (files : List FileAttachment) (hrole : m.role = "user") (hf : files ≠ []) :
    (processedMessages (ms ++ [m]) files).getLast?
      = some ⟨m.role, MessageContent.parts
          (ContentPart.text (m.content ++ strConcat (files.map textBlock))
            :: (files.filter imageRouted).map (fun f => ContentPart.image_url f.base64))⟩ := by
  rw [processedMessages_concat ms m files hrole hf, List.getLast?_concat,
    rewriteLastMessage_eq]

/-- Witness for C6 amended at a request carrying one image and one PDF
document. -/
theorem attachment_routing_witness :
    (⟨"user", "hi"⟩ : ChatMessage).role = "user" ∧
    ([⟨"p.png", "image/png", "b", none, none⟩, ⟨"d.pdf", "application/pdf", "c", some "T", some 3⟩]
      ≠ ([] : List FileAttachment)) ∧
    (processedMessages ([] ++ [⟨"user", "hi"⟩])
        [⟨"p.png", "image/png", "b", none, none⟩, ⟨"d.pdf", "application/pdf", "c", some "T", some 3⟩]).getLast?
      = some ⟨(⟨"user", "hi"⟩ : ChatMessage).role, MessageContent.parts
          (ContentPart.text ((⟨"user", "hi"⟩ : ChatMessage).content
              ++ strConcat ([⟨"p.png", "image/png", "b", none, none⟩,
                  ⟨"d.pdf", "application/pdf", "c", some "T", some 3⟩].map textBlock))
            :: ([⟨"p.png", "image/png", "b", none, none⟩,
                  ⟨"d.pdf", "application/pdf", "c", some "T", some 3⟩].filter imageRouted).map
                (fun f => ContentPart.image_url f.base64))⟩ :=
  ⟨rfl, by decide,
    attachment_routing [] ⟨"user", "hi"⟩
      [⟨"p.png", "image/png", "b", none, none⟩, ⟨"d.pdf", "application/pdf", "c", some "T", some 3⟩]
      rfl (by decide)⟩

/-- C7: when the last user message carries one document attachment with
non-empty extracted text T and page count 3, the rewritten message's text
content contains T and a bracketed label with the filename and the page
count. -/
theorem document_attachment_text (ms : List ChatMessage) (m : ChatMessage)
    (nm b64 T : String) (hrole : m.role = "user") (hT : T ≠ "") :
    ∃ t, (processedMessages (ms ++ [m]) [⟨nm, "application/pdf", b64, some T, some 3⟩]).getLast?
        = some ⟨m.role, MessageContent.parts [ContentPart.text t]⟩ ∧
      ContainsStr t T ∧
      ContainsStr t ("[PDF Document: " ++ nm ++ " (" ++ "3" ++ " pages)]") := by
  have htr : jsTruthyStr (some T) = true := by simp [jsTruthyStr, hT]
  refine ⟨m.content ++ pdfBlock ⟨nm, "application/pdf", b64, some T, some 3⟩, ?_, ?_, ?_⟩
  · rw [processedMessages_concat ms m _ hrole (by simp), List.getLast?_concat]
    simp [rewriteLastMessage, attachStep, htr]
  · refine ⟨m.content ++ ("\n\n[PDF Document: " ++ nm ++ " (" ++ "3" ++ " pages)]\n"), "", ?_⟩
    have h3 : showPageCount (some 3) = "3" := rfl
    simp [pdfBlock, h3, String.append_assoc, String.append_empty]
  · refine ⟨m.content ++ "\n\n", "\n" ++ T, ?_⟩
    have h3 : showPageCount (some 3) = "3" := rfl
    have h1 : ("\n\n" : String) ++ "[PDF Document: " = "\n\n[PDF Document: " := by decide
    have h2 : (" pages)]" : String) ++ "\n" = " pages)]\n" := by decide
    simp only [pdfBlock, h3, Option.getD_some, String.append_assoc]
    rw [← h1, ← h2]
    simp only [String.append_assoc]

/-- Witness for C7 at a concrete document attachment. -/
theorem document_attachment_text_witness :
    (⟨"user", "hi"⟩ : ChatMessage).role = "user" ∧
    ("T" : String) ≠ "" ∧
    (∃ t, (processedMessages ([] ++ [⟨"user", "hi"⟩])
        [⟨"doc.pdf", "application/pdf", "b64", some "T", some 3⟩]).getLast?
        = some ⟨(⟨"user", "hi"⟩ : ChatMessage).role, MessageContent.parts [ContentPart.text t]⟩ ∧
      ContainsStr t "T" ∧
      ContainsStr t ("[PDF Document: " ++ "doc.pdf" ++ " (" ++ "3" ++ " pages)]")) :=
  ⟨rfl, by decide, document_attachment_text [] ⟨"user", "hi"⟩ "doc.pdf" "b64" "T" rfl (by decide)⟩

/-- C9: parsePDF extracts text from at most 20 pages; when the page count
exceeds 20 the parts end with a truncation notice stating the total page
count and the 20 pages shown, and when the page count is at most 20 the
parts are exactly the page blocks with no notice. -/
theorem pdf_page_cap (n : Nat) (pt : Nat → String) :
    min n 20 ≤ 20 ∧
    (n ≤ 20 → parsePDFParts n pt = (List.range n).map (fun k => pdfPagePart pt (k + 1))) ∧
    (20 < n → parsePDFParts n pt
      = (List.range 20).map (fun k => pdfPagePart pt (k + 1)) ++ [pdfTruncationNote n 20]) := by
  refine ⟨Nat.min_le_right n 20, ?_, ?_⟩
  · intro h
    have hm : min n 20 = n := Nat.min_eq_left h
    simp [parsePDFParts, hm]
  · intro h
    have hm : min n 20 = 20 := Nat.min_eq_right (Nat.le_of_lt h)
    simp [parsePDFParts, hm, h]

/-- Witness for C9 at a 25-page document and at a 3-page document. -/
theorem pdf_page_cap_witness :
    (20 < 25 ∧ parsePDFParts 25 (fun i => "p" ++ toString i)
      = (List.range 20).map (fun k => pdfPagePart (fun i => "p" ++ toString i) (k + 1))
        ++ [pdfTruncationNote 25 20]) ∧
    (3 ≤ 20 ∧ parsePDFParts 3 (fun i => "p" ++ toString i)
      = (List.range 3).map (fun k => pdfPagePart (fun i => "p" ++ toString i) (k + 1))) :=
  ⟨⟨by decide, (pdf_page_cap 25 (fun i => "p" ++ toString i)).2.2 (by decide)⟩,
    ⟨by decide, (pdf_page_cap 3 (fun i => "p" ++ toString i)).2.1 (by decide)⟩⟩

/-- C10: image generation is capped at 2 per user per day: with a recorded
daily count of at least 2, canGenerate is false and generateImage returns
null without issuing a request; with a count below 2 and an authenticated
user the request is issued and a successful request increments the daily
count by exactly one. -/
theorem image_generation_daily_cap (uid : Option String) (n : Nat) (fo : FetchOutcome) :
    DAILY_LIMIT = 2 ∧
    (2 ≤ n → canGenerate n = false ∧ generateImage uid n fo = ⟨none, n, false⟩) ∧
    (∀ u, uid = some u → n < 2 →
      (generateImage uid n fo).requestIssued = true ∧
      ∀ url txt, fo = FetchOutcome.success url txt →
        generateImage uid n fo = ⟨some ⟨url, txt⟩, n + 1, true⟩) := by
  refine ⟨rfl, ?_, ?_⟩
  · intro h
    refine ⟨?_, ?_⟩
    · simp only [canGenerate, DAILY_LIMIT, decide_eq_false_iff_not, Nat.not_lt]
      exact h
    · cases uid with
      | none => rfl
      | some u => simp [generateImage, DAILY_LIMIT, h]
  · intro u hu hn
    subst hu
    have hlt : ¬(DAILY_LIMIT ≤ n) := by simp [DAILY_LIMIT]; omega
    refine ⟨?_, ?_⟩
    · cases fo with
      | success url txt => simp [generateImage, hlt]
      | failure e => simp [generateImage, hlt]
    · intro url txt hfo
      subst hfo
      simp [generateImage, hlt]

/-- Witness for C10 at the cap and below the cap. -/
theorem image_generation_daily_cap_witness :
    (2 ≤ 2 ∧ canGenerate 2 = false ∧
      generateImage (some "u") 2 (FetchOutcome.success "i" none) = ⟨none, 2, false⟩) ∧
    ((0 : Nat) < 2 ∧
      generateImage (some "u") 0 (FetchOutcome.success "i" none) = ⟨some ⟨"i", none⟩, 0 + 1, true⟩) :=
  ⟨⟨by decide, (image_generation_daily_cap (some "u") 2 (FetchOutcome.success "i" none)).2.1 (by decide)⟩,
    ⟨by decide, ((image_generation_daily_cap (some "u") 0 (FetchOutcome.success "i" none)).2.2 "u" rfl
      (by decide)).2 "i" none rfl⟩⟩

end KnowBase
